import Mathlib

/-!
Verification of the mnemom/deploy risk-control scripts.

Shallow embedding of the three core components:
- the canary error-rate gate (queryErrorRate / main of the error-rate check script),
- the deployment confidence scorer (confidence-score.js),
- the post-deploy rollback supervisor (post-deploy-monitor.js).

External effects (the Cloudflare GraphQL query, the GitHub API calls, the
rollback workflow dispatch) are modelled as explicit inputs: each invocation
receives the outcome the external collaborator would have produced.
-/

namespace Deploy

/-- Error rate as computed by queryErrorRate in both the canary check and the
monitor: requests > 0 ? errors / requests : 0. The quotient is written with
mkRat so that it evaluates in the kernel; errorRateOf_eq_div below shows it is
the rational division errors / requests. -/
def errorRateOf (requests errors : Nat) : ℚ :=
  if 0 < requests then mkRat errors requests else 0

/-- JS String.prototype.startsWith, on the character sequence. -/
def strStartsWith (s p : String) : Bool := p.data.isPrefixOf s.data

/-- JS String.prototype.endsWith, on the character sequence. -/
def strEndsWith (s p : String) : Bool := List.isSuffixOf p.data s.data

/-- Outcome of one call to the Cloudflare analytics backend, as seen by
queryErrorRate after its own response handling: either a thrown error
(non-ok HTTP status or GraphQL errors array), or the summed invocation
counts (the missing/empty invocations case is success 0 0, matching the
script returning zeros there). -/
inductive QueryOutcome where
  | failure (reason : String)
  | success (requests errors : Nat)
deriving DecidableEq

/-- The sample value queryErrorRate resolves with. -/
structure MetricsSample where
  requests : Nat
  errors : Nat
  errorRate : ℚ
deriving DecidableEq

/-- queryErrorRate: propagates a thrown error, otherwise builds the sample
with the computed error rate. -/
def runQuery : QueryOutcome → Except String MetricsSample
  | QueryOutcome.failure r => Except.error r
  | QueryOutcome.success req err => Except.ok ⟨req, err, errorRateOf req err⟩

/-- JS Number.toFixed(2) for the nonnegative rationals the scripts format. -/
def toFixed2 (q : ℚ) : String :=
  let n : Int := ⌊q * 100 + 1 / 2⌋
  let whole := n / 100
  let frac := (n % 100).natAbs
  toString whole ++ "." ++ (if frac < 10 then "0" else "") ++ toString frac

/-- Observable result of one canary-gate invocation: the step-summary lines,
the GITHUB_OUTPUT key/value pairs, and the process exit code. -/
structure CanaryReport where
  summary : List String
  outputs : List (String × String)
  exitCode : Nat
deriving DecidableEq

/-- main of the canary error-rate check script. Missing SCRIPT_NAME exits 1
before any query; a query failure is fail-open (canary-passed=true with the
reason in the summary); otherwise the verdict is
requests == 0 || errorRate <= errorThreshold. -/
def canaryMain (scriptName : Option String) (observationSeconds : Nat)
    (errorThreshold : ℚ) (query : QueryOutcome) : CanaryReport :=
  match scriptName with
  | none => { summary := [], outputs := [], exitCode := 1 }
  | some name =>
    match runQuery query with
    | Except.error msg =>
        { summary := ["## Canary Error Rate Check", "",
            "> **PASS** (fail-open) — analytics query failed: " ++ msg],
          outputs := [("canary-passed", "true")],
          exitCode := 0 }
    | Except.ok result =>
        let passed : Bool := result.requests == 0 || decide (result.errorRate ≤ errorThreshold)
        { summary := ["## Canary Error Rate Check", "",
            "| Metric | Value |", "|--------|-------|",
            "| Script | `" ++ (name ++ "` |"),
            "| Window | " ++ (toString observationSeconds ++ "s |"),
            "| Requests | " ++ (toString result.requests ++ " |"),
            "| Errors | " ++ (toString result.errors ++ " |"),
            "| Error Rate | " ++ (toFixed2 (result.errorRate * 100) ++ "% |"),
            "| Threshold | " ++ (toFixed2 (errorThreshold * 100) ++ "% |"),
            "| Result | **" ++ ((if passed then "PASS" else "FAIL") ++ "** |")]
          ++ (if result.requests == 0 then
                ["", "_No traffic observed during window — passing (fail-open)._"]
              else []),
          outputs := [("canary-passed", if passed then "true" else "false")],
          exitCode := 0 }

/-- The main().catch handler of the canary check: any script-level error is
fail-open, emitting a PASS summary and canary-passed=true. -/
def canaryCatchReport (msg : String) : CanaryReport :=
  { summary := ["## Canary Error Rate Check", "",
      "> **PASS** (fail-open) — script error: " ++ msg],
    outputs := [("canary-passed", "true")],
    exitCode := 0 }

/-- One row of the confidence-score factor table: {signal, impact}. -/
structure RiskFactor where
  signal : String
  impact : String
deriving DecidableEq

/-- One entry of the GitHub compare response used by getDiffStats. -/
structure FileDiff where
  filename : String
  additions : Nat
  deletions : Nat
deriving DecidableEq

/-- Result of getDiffStats: total changed lines plus the changed file names. -/
structure DiffStats where
  totalChanges : Nat
  files : List String
deriving DecidableEq

/-- getDiffStats of confidence-score.js. The commit lookup yields the first
parent SHA (or none); a missing parent short-circuits to zero changes; the
compare call yields per-file additions/deletions. Either API call may throw. -/
def getDiffStats (commitParent : Except String (Option String))
    (compareFiles : Except String (List FileDiff)) : Except String DiffStats :=
  match commitParent with
  | Except.error e => Except.error e
  | Except.ok none => Except.ok ⟨0, []⟩
  | Except.ok (some _) =>
    match compareFiles with
    | Except.error e => Except.error e
    | Except.ok fs =>
        Except.ok ⟨fs.foldl (fun sum f => sum + f.additions + f.deletions) 0,
          fs.map (fun f => f.filename)⟩

/-- The JS number getDaysSinceLastProdDeploy resolves with: a finite day
count, or Infinity when the deployment list is empty. -/
inductive JsDays where
  | finite (q : ℚ)
  | infinite
deriving DecidableEq

/-- getDaysSinceLastProdDeploy: the deployments API call may throw; an empty
deployment history returns Infinity; otherwise (now − created_at) in days,
with timestamps in epoch milliseconds. The quotient is written with mkRat so
that it evaluates in the kernel; daysSince_eq_div below shows it is the
division by 1000 * 60 * 60 * 24. -/
def getDaysSinceLastProdDeploy (deployments : Except String (List Int)) (now : Int) :
    Except String JsDays :=
  match deployments with
  | Except.error e => Except.error e
  | Except.ok [] => Except.ok JsDays.infinite
  | Except.ok (createdAt :: _) =>
      Except.ok (JsDays.finite (mkRat (now - createdAt) (1000 * 60 * 60 * 24)))

/-- JS comparison daysSince > 7 (Infinity > 7 is true). -/
def JsDays.gtSeven : JsDays → Bool
  | JsDays.infinite => true
  | JsDays.finite q => decide (7 < q)

/-- JS Math.round for the day count. -/
def jsRound (q : ℚ) : Int := ⌊q + 1 / 2⌋

/-- The string Math.round(daysSince) interpolates into the factor label
("Infinity" for the no-history case). -/
def JsDays.roundLabel : JsDays → String
  | JsDays.infinite => "Infinity"
  | JsDays.finite q => toString (jsRound q)

/-- The fixed service list of countServicesAffected. -/
def serviceKeys : List String :=
  ["smoltbot", "mnemom-api", "mnemom-reputation", "mnemom-risk",
   "mnemom-website", "mnemom-prover", "hunter"]

/-- countServicesAffected: services (not package-only deployables) whose
deploy flag is exactly true. -/
def countServicesAffected (deployFlags : List (String × Bool)) : Nat :=
  (serviceKeys.filter (fun k => deployFlags.lookup k == some true)).length

/-- Scoring step 1 (diff stats): small-change bonus and large-change penalty.
The accumulator pairs the running score with the factor list. -/
def applyDiffSize (stats : DiffStats) (acc : Int × List RiskFactor) :
    Int × List RiskFactor :=
  let acc1 :=
    if stats.totalChanges < 50 then
      (acc.1 + 10, acc.2 ++ [⟨"Small change (<50 lines)", "+10"⟩])
    else acc
  if stats.totalChanges > 500 then
    (acc1.1 - 20, acc1.2 ++ [⟨"Large change (>500 lines)", "-20"⟩])
  else acc1

/-- Scoring step 2 (config file changes): files outside src/ that are not
test/spec files. -/
def applyConfigFiles (stats : DiffStats) (acc : Int × List RiskFactor) :
    Int × List RiskFactor :=
  let configFiles := stats.files.filter (fun f =>
    !(strStartsWith f "src/") && !(strEndsWith f ".test.ts") && !(strEndsWith f ".test.js")
      && !(strEndsWith f ".spec.ts") && !(strEndsWith f ".spec.js"))
  if configFiles.length > 0 then
    (acc.1 - 10, acc.2 ++ [⟨"Files outside src/ ("
        ++ (String.intercalate ", " (configFiles.take 3)
        ++ ((if configFiles.length > 3 then "..." else "") ++ ")")), "-10"⟩])
  else acc

/-- Scoring step 3 (dependency changes): manifest or lockfile names. -/
def applyDepFiles (stats : DiffStats) (acc : Int × List RiskFactor) :
    Int × List RiskFactor :=
  let depFiles := stats.files.filter (fun f =>
    strEndsWith f "package.json" || strEndsWith f "package-lock.json"
      || strEndsWith f "pnpm-lock.yaml")
  if depFiles.length > 0 then
    (acc.1 - 15, acc.2 ++ [⟨"Dependency changes ("
        ++ (String.intercalate ", " depFiles ++ ")"), "-15"⟩])
  else acc

/-- Scoring step 4 (services affected): >3 costs 15, 2–3 costs 5. -/
def applyServices (deployFlags : List (String × Bool)) (acc : Int × List RiskFactor) :
    Int × List RiskFactor :=
  let serviceCount := countServicesAffected deployFlags
  if serviceCount > 3 then
    (acc.1 - 15, acc.2 ++ [⟨toString serviceCount ++ " services affected (>3)", "-15"⟩])
  else if serviceCount ≥ 2 then
    (acc.1 - 5, acc.2 ++ [⟨toString serviceCount ++ " services affected (2-3)", "-5"⟩])
  else acc

/-- Scoring step 5 (time since last prod deploy): the lookup failing records a
neutral n/a factor; more than 7 days costs 5 with the rounded day count in
the label. -/
def applyDays (daysRes : Except String JsDays) (acc : Int × List RiskFactor) :
    Int × List RiskFactor :=
  match daysRes with
  | Except.error _ =>
      (acc.1, acc.2 ++ [⟨"Last prod deploy time unavailable", "n/a"⟩])
  | Except.ok d =>
      if d.gtSeven then
        (acc.1 - 5, acc.2 ++ [⟨">7 days since last prod deploy ("
            ++ (d.roundLabel ++ "d)"), "-5"⟩])
      else acc

/-- The factor pipeline of confidence-score.js main, starting from the
baseline score of 100, in source order. -/
def computeScore (deployFlags : List (String × Bool)) (stats : DiffStats)
    (daysRes : Except String JsDays) : Int × List RiskFactor :=
  applyDays daysRes
    (applyServices deployFlags
      (applyDepFiles stats
        (applyConfigFiles stats
          (applyDiffSize stats (100, [])))))

/-- Observable result of one confidence-score invocation: the reported score,
the factor table, and the step-summary lines. -/
structure ScoreReport where
  score : Int
  factors : List RiskFactor
  summary : List String
deriving DecidableEq

/-- The step-summary header line shared by every outcome path. -/
def scoreHeader : String := "## Deployment Confidence Score"

/-- main of confidence-score.js. Missing repo or SHA reports the neutral 50
before any API call; a diff-stats failure reports the neutral 50; otherwise
the factor pipeline runs and the score is clamped to [0,100]. -/
def scoreMain (repo sha : Option String) (deployFlags : List (String × Bool))
    (diff : Except String DiffStats) (daysRes : Except String JsDays) : ScoreReport :=
  match repo, sha with
  | some r, some s =>
    (match diff with
    | Except.error e =>
        { score := 50, factors := [],
          summary := [scoreHeader, "", "**Score: 50** / 100", "",
            "_Analysis unavailable: " ++ (e ++ "_")] }
    | Except.ok stats =>
        let res := computeScore deployFlags stats daysRes
        let score := max 0 (min 100 res.1)
        { score := score, factors := res.2,
          summary := [scoreHeader, "",
              "**Score: " ++ (toString score ++ "** / 100"), "",
              "> Source: `" ++ (r ++ ("` @ `" ++ (s.take 7 ++ "`"))), ""]
            ++ (if res.2.length > 0 then
                  ["| Signal | Impact |", "|--------|--------|"]
                    ++ res.2.map (fun f => "| " ++ (f.signal ++ (" | " ++ (f.impact ++ " |"))))
                else ["_No risk signals detected._"]) })
  | _, _ =>
    { score := 50, factors := [],
      summary := [scoreHeader, "", "**Score: 50** / 100", "",
        "_No source commit available for analysis (manual dispatch without ref)._"] }

/-- The main().catch handler of confidence-score.js: any residual error still
reports the neutral 50 with the header block. -/
def scoreCatchReport (msg : String) : ScoreReport :=
  { score := 50, factors := [],
    summary := [scoreHeader, "", "**Score: 50** / 100", "",
      "_Error computing score: " ++ (msg ++ "_")] }

/-- Outcome field of one PollRecord: a successful sample with its computed
error rate, or a failed analytics query with its reason string. -/
inductive PollOutcome where
  | sampled (requests errors : Nat) (errorRate : ℚ)
  | queryFailed (message : String)
deriving DecidableEq

/-- One entry of the checks audit trail of post-deploy-monitor.js. -/
structure PollRecord where
  iteration : Nat
  outcome : PollOutcome
deriving DecidableEq

/-- True exactly on a status="error" (QueryFailed) record. -/
def PollRecord.failedRecord : PollRecord → Bool
  | ⟨_, PollOutcome.queryFailed _⟩ => true
  | ⟨_, PollOutcome.sampled _ _ _⟩ => false

/-- Terminal state of one supervision run: a fatal configuration error before
polling, a rollback (with the audit trail, the triggering iteration, and the
dispatch result), or a pass with the full audit trail. -/
inductive RunResult where
  | configError
  | rolledBack (checks : List PollRecord) (triggerIteration : Nat) (dispatched : Bool)
  | passed (checks : List PollRecord)
deriving DecidableEq

/-- dispatchRollback of post-deploy-monitor.js: with no GitHub token it logs
and returns false; otherwise the workflow-dispatch interaction (the api
argument) either rejects — the fetch or the res.text() call fails at the
network level, and since neither is inside a try the rejection propagates to
the caller — or returns a non-ok HTTP status (logged, returns false), or
succeeds (returns true). -/
def dispatchRollback (githubToken : Option String) (api : Except String Bool) :
    Except String Bool :=
  match githubToken with
  | none => Except.ok false
  | some _ =>
    match api with
    | Except.error e => Except.error e
    | Except.ok false => Except.ok false
    | Except.ok true => Except.ok true

/-- The polling loop of post-deploy-monitor.js main. Each iteration runs while
elapsed < monitorDuration: the sleep advances elapsed by pollInterval, the
query result is appended to checks (QueryFailed on a thrown query, fail-open),
and a successful sample with requests > 0 and errorRate > errorThreshold
dispatches rollback and terminates. The fuel argument bounds recursion; the
top-level run supplies monitorDuration + 1, which is never exhausted when
pollInterval > 0. -/
def pollLoop (env : Nat → QueryOutcome) (errorThreshold : ℚ)
    (pollInterval monitorDuration : Nat) (dispatchOk : Bool) :
    Nat → Nat → Nat → List PollRecord → RunResult
  | 0, _, _, checks => RunResult.passed checks
  | fuel + 1, elapsed, iteration, checks =>
    if elapsed < monitorDuration then
      match env (iteration + 1) with
      | QueryOutcome.failure msg =>
          pollLoop env errorThreshold pollInterval monitorDuration dispatchOk
            fuel (elapsed + pollInterval) (iteration + 1)
            (checks ++ [⟨iteration + 1, PollOutcome.queryFailed msg⟩])
      | QueryOutcome.success req err =>
          if 0 < req ∧ errorThreshold < errorRateOf req err then
            RunResult.rolledBack
              (checks ++ [⟨iteration + 1, PollOutcome.sampled req err (errorRateOf req err)⟩])
              (iteration + 1) dispatchOk
          else
            pollLoop env errorThreshold pollInterval monitorDuration dispatchOk
              fuel (elapsed + pollInterval) (iteration + 1)
              (checks ++ [⟨iteration + 1, PollOutcome.sampled req err (errorRateOf req err)⟩])
    else RunResult.passed checks

/-- main of post-deploy-monitor.js: missing SCRIPT_NAME or SERVICE_NAME is a
fatal configuration error before any polling; otherwise the polling loop runs
from elapsed 0 with an empty audit trail. -/
def runSupervisor (scriptName serviceName : Option String) (errorThreshold : ℚ)
    (monitorDuration pollInterval : Nat) (env : Nat → QueryOutcome)
    (dispatchOk : Bool) : RunResult :=
  match scriptName, serviceName with
  | some _, some _ =>
      pollLoop env errorThreshold pollInterval monitorDuration dispatchOk
        (monitorDuration + 1) 0 0 []
  | _, _ => RunResult.configError

/-- Process exit code of each terminal state: process.exit(1) on missing
config, process.exit(1) after a rollback dispatch, default exit 0 on pass. -/
def runExitCode : RunResult → Nat
  | RunResult.configError => 1
  | RunResult.rolledBack _ _ _ => 1
  | RunResult.passed _ => 0

/-- Whether main completed or threw (the main().catch handler swallows the
error, so a thrown main never sets a non-zero exit code). -/
inductive MonitorBehavior where
  | completes (r : RunResult)
  | throws (message : String)
deriving DecidableEq

/-- Exit code of the whole process, including the fail-open catch handler. -/
def monitorExitCode : MonitorBehavior → Nat
  | MonitorBehavior.completes r => runExitCode r
  | MonitorBehavior.throws _ => 0

/-- Number of dispatchRollback invocations a terminal state implies: exactly
one on the rolled-back path, none otherwise. -/
def dispatchCount : RunResult → Nat
  | RunResult.rolledBack _ _ _ => 1
  | _ => 0

/-- The whole monitor process around one supervision run. On the breach path
main awaits dispatchRollback and then calls process.exit(1); that await is
not inside any try, so a rejected dispatch skips process.exit(1) and
propagates to main().catch, while a dispatch that returns (true or false)
reaches process.exit(1). Config errors and passes never touch the
dispatcher. The loop itself never inspects the dispatched flag (it only
records it), so it runs with the placeholder true and the flag of a
completing breach run is the value the dispatch returned. -/
def monitorMain (scriptName serviceName : Option String) (errorThreshold : ℚ)
    (monitorDuration pollInterval : Nat) (env : Nat → QueryOutcome)
    (githubToken : Option String) (api : Except String Bool) : MonitorBehavior :=
  match runSupervisor scriptName serviceName errorThreshold monitorDuration
      pollInterval env true with
  | RunResult.rolledBack checks idx _ =>
      match dispatchRollback githubToken api with
      | Except.error msg => MonitorBehavior.throws msg
      | Except.ok ok => MonitorBehavior.completes (RunResult.rolledBack checks idx ok)
  | r => MonitorBehavior.completes r

theorem errorRateOf_eq_div (requests errors : Nat) (h : 0 < requests) :
    errorRateOf requests errors = (errors : ℚ) / (requests : ℚ) := by
  rw [errorRateOf, if_pos h, Rat.mkRat_eq_div]
  norm_num

theorem daysSince_eq_div (now createdAt : Int) :
    mkRat (now - createdAt) (1000 * 60 * 60 * 24)
      = ((now : ℚ) - (createdAt : ℚ)) / (1000 * 60 * 60 * 24) := by
  rw [Rat.mkRat_eq_div]
  push_cast
  norm_num

theorem pollLoop_stop (env : Nat → QueryOutcome) (thr : ℚ) (intv dur : Nat)
    (dOk : Bool) (n elapsed iter : Nat) (checks : List PollRecord)
    (h : ¬ elapsed < dur) :
    pollLoop env thr intv dur dOk (n + 1) elapsed iter checks
      = RunResult.passed checks := by
  rw [pollLoop, if_neg h]

theorem pollLoop_fail_step (env : Nat → QueryOutcome) (thr : ℚ) (intv dur : Nat)
    (dOk : Bool) (n elapsed iter : Nat) (checks : List PollRecord) (msg : String)
    (h1 : elapsed < dur) (h2 : env (iter + 1) = QueryOutcome.failure msg) :
    pollLoop env thr intv dur dOk (n + 1) elapsed iter checks
      = pollLoop env thr intv dur dOk n (elapsed + intv) (iter + 1)
          (checks ++ [⟨iter + 1, PollOutcome.queryFailed msg⟩]) := by
  rw [pollLoop, if_pos h1, h2]

theorem pollLoop_success_step (env : Nat → QueryOutcome) (thr : ℚ) (intv dur : Nat)
    (dOk : Bool) (n elapsed iter : Nat) (checks : List PollRecord) (req err : Nat)
    (h1 : elapsed < dur) (h2 : env (iter + 1) = QueryOutcome.success req err) :
    pollLoop env thr intv dur dOk (n + 1) elapsed iter checks
      = if 0 < req ∧ thr < errorRateOf req err then
          RunResult.rolledBack
            (checks ++ [⟨iter + 1, PollOutcome.sampled req err (errorRateOf req err)⟩])
            (iter + 1) dOk
        else
          pollLoop env thr intv dur dOk n (elapsed + intv) (iter + 1)
            (checks ++ [⟨iter + 1, PollOutcome.sampled req err (errorRateOf req err)⟩]) := by
  rw [pollLoop, if_pos h1, h2]

theorem pollLoop_rolledBack_breach (env : Nat → QueryOutcome) (thr : ℚ)
    (intv dur : Nat) (dOk : Bool) :
    ∀ fuel elapsed iter checks cs idx d,
      pollLoop env thr intv dur dOk fuel elapsed iter checks
        = RunResult.rolledBack cs idx d →
      ∃ req err, cs.getLast? = some ⟨idx, PollOutcome.sampled req err (errorRateOf req err)⟩
        ∧ 0 < req ∧ thr < errorRateOf req err := by
  intro fuel
  induction fuel with
  | zero =>
    intro elapsed iter checks cs idx d h
    simp [pollLoop] at h
  | succ n ih =>
    intro elapsed iter checks cs idx d h
    by_cases hlt : elapsed < dur
    · cases henv : env (iter + 1) with
      | failure msg =>
        rw [pollLoop_fail_step env thr intv dur dOk n elapsed iter checks msg hlt henv] at h
        exact ih _ _ _ _ _ _ h
      | success req err =>
        rw [pollLoop_success_step env thr intv dur dOk n elapsed iter checks req err
          hlt henv] at h
        split at h
        · rename_i hb
          rw [RunResult.rolledBack.injEq] at h
          obtain ⟨h1, h2, _⟩ := h
          refine ⟨req, err, ?_, hb.1, hb.2⟩
          rw [← h1, ← h2, List.getLast?_concat]
        · exact ih _ _ _ _ _ _ h
    · rw [pollLoop_stop env thr intv dur dOk n elapsed iter checks hlt] at h
      simp at h

theorem pollLoop_dispatch_flag (env : Nat → QueryOutcome) (thr : ℚ)
    (intv dur : Nat) (d1 d2 : Bool) :
    ∀ fuel elapsed iter checks cs idx d,
      pollLoop env thr intv dur d1 fuel elapsed iter checks
        = RunResult.rolledBack cs idx d →
      pollLoop env thr intv dur d2 fuel elapsed iter checks
        = RunResult.rolledBack cs idx d2 := by
  intro fuel
  induction fuel with
  | zero =>
    intro elapsed iter checks cs idx d h
    simp [pollLoop] at h
  | succ n ih =>
    intro elapsed iter checks cs idx d h
    by_cases hlt : elapsed < dur
    · cases henv : env (iter + 1) with
      | failure msg =>
        rw [pollLoop_fail_step env thr intv dur d1 n elapsed iter checks msg hlt henv] at h
        rw [pollLoop_fail_step env thr intv dur d2 n elapsed iter checks msg hlt henv]
        exact ih _ _ _ _ _ _ h
      | success req err =>
        rw [pollLoop_success_step env thr intv dur d1 n elapsed iter checks req err
          hlt henv] at h
        rw [pollLoop_success_step env thr intv dur d2 n elapsed iter checks req err
          hlt henv]
        split at h <;> rename_i hb
        · rw [if_pos hb]
          rw [RunResult.rolledBack.injEq] at h
          obtain ⟨h1, h2, _⟩ := h
          rw [h1, h2]
        · rw [if_neg hb]
          exact ih _ _ _ _ _ _ h
    · rw [pollLoop_stop env thr intv dur d1 n elapsed iter checks hlt] at h
      simp at h

theorem pollLoop_allFail (env : Nat → QueryOutcome) (thr : ℚ)
    (intv dur : Nat) (dOk : Bool)
    (hfail : ∀ j, ∃ m, env j = QueryOutcome.failure m) :
    ∀ fuel elapsed iter checks, (∀ c ∈ checks, c.failedRecord = true) →
      ∃ cs, pollLoop env thr intv dur dOk fuel elapsed iter checks
          = RunResult.passed cs
        ∧ ∀ c ∈ cs, c.failedRecord = true := by
  intro fuel
  induction fuel with
  | zero =>
    intro elapsed iter checks hc
    exact ⟨checks, by simp [pollLoop], hc⟩
  | succ n ih =>
    intro elapsed iter checks hc
    by_cases hlt : elapsed < dur
    · obtain ⟨m, hm⟩ := hfail (iter + 1)
      rw [pollLoop_fail_step env thr intv dur dOk n elapsed iter checks m hlt hm]
      refine ih _ _ _ ?_
      intro c hcmem
      rcases List.mem_append.mp hcmem with hin | hin
      · exact hc c hin
      · rw [List.mem_singleton.mp hin]
        rfl
    · rw [pollLoop_stop env thr intv dur dOk n elapsed iter checks hlt]
      exact ⟨checks, rfl, hc⟩

/-- Claim C1: in every supervision run the rollback dispatcher is invoked at
most once, and only when the most recent poll record is a successfully
sampled record whose sample has requestCount > 0 and errorRate above the
threshold; a QueryFailed poll record never by itself triggers rollback. -/
theorem rollback_at_most_once_only_on_breach (scriptName serviceName : Option String)
    (thr : ℚ) (dur intv : Nat) (env : Nat → QueryOutcome) (dOk : Bool) :
    dispatchCount (runSupervisor scriptName serviceName thr dur intv env dOk) ≤ 1
    ∧ ∀ cs idx d,
        runSupervisor scriptName serviceName thr dur intv env dOk
          = RunResult.rolledBack cs idx d →
        ∃ req err,
          cs.getLast? = some ⟨idx, PollOutcome.sampled req err (errorRateOf req err)⟩
          ∧ 0 < req ∧ thr < errorRateOf req err := by
  constructor
  · cases runSupervisor scriptName serviceName thr dur intv env dOk <;> simp [dispatchCount]
  · intro cs idx d h
    cases scriptName with
    | none => simp [runSupervisor] at h
    | some a =>
      cases serviceName with
      | none => simp [runSupervisor] at h
      | some b =>
        exact pollLoop_rolledBack_breach env thr intv dur dOk _ _ _ _ _ _ _ h

theorem rollback_at_most_once_only_on_breach_witness :
    dispatchCount (runSupervisor (some "w") (some "svc") (mkRat 5 100) 300 30
      (fun _ => QueryOutcome.success 50 5) true) ≤ 1
    ∧ ∃ req err,
        List.getLast? [(⟨1, PollOutcome.sampled 50 5 (errorRateOf 50 5)⟩ : PollRecord)]
          = some ⟨1, PollOutcome.sampled req err (errorRateOf req err)⟩
        ∧ 0 < req ∧ mkRat 5 100 < errorRateOf req err :=
  ⟨(rollback_at_most_once_only_on_breach (some "w") (some "svc") (mkRat 5 100) 300 30
      (fun _ => QueryOutcome.success 50 5) true).1,
   (rollback_at_most_once_only_on_breach (some "w") (some "svc") (mkRat 5 100) 300 30
      (fun _ => QueryOutcome.success 50 5) true).2
      [⟨1, PollOutcome.sampled 50 5 (errorRateOf 50 5)⟩] 1 true (by decide)⟩

/-- Claim C2, code-bug evaluation: on a breach run (first poll samples 50
requests with 5 errors, rate 0.10 above the 0.05 threshold) whose rollback
dispatch rejects at the network level, the rejection skips process.exit(1)
and reaches main().catch, and the process exits 0 — the dispatch failure
converts the breach run into a success signal, against the claim, the
script's own header comment and spec section 4.3. The returned failure modes
(non-ok HTTP status, missing GitHub token) and the success mode do reach
process.exit(1). -/
theorem breach_dispatch_outcomes :
    runSupervisor (some "w") (some "svc") (mkRat 5 100) 300 30
        (fun _ => QueryOutcome.success 50 5) true
      = RunResult.rolledBack [⟨1, PollOutcome.sampled 50 5 (errorRateOf 50 5)⟩] 1 true
    ∧ monitorMain (some "w") (some "svc") (mkRat 5 100) 300 30
        (fun _ => QueryOutcome.success 50 5) (some "ghtoken") (Except.error "fetch failed")
      = MonitorBehavior.throws "fetch failed"
    ∧ monitorExitCode (monitorMain (some "w") (some "svc") (mkRat 5 100) 300 30
        (fun _ => QueryOutcome.success 50 5) (some "ghtoken") (Except.error "fetch failed")) = 0
    ∧ monitorExitCode (monitorMain (some "w") (some "svc") (mkRat 5 100) 300 30
        (fun _ => QueryOutcome.success 50 5) (some "ghtoken") (Except.ok false)) = 1
    ∧ monitorExitCode (monitorMain (some "w") (some "svc") (mkRat 5 100) 300 30
        (fun _ => QueryOutcome.success 50 5) (some "ghtoken") (Except.ok true)) = 1
    ∧ monitorExitCode (monitorMain (some "w") (some "svc") (mkRat 5 100) 300 30
        (fun _ => QueryOutcome.success 50 5) none (Except.ok true)) = 1 := by
  decide

/-- Claim C3, counterexample: a run with SERVICE_NAME missing exits with the
non-zero code 1 although no rollback was triggered (the result is the fatal
configuration error, not a rollback), so the supervisor does not exit
non-zero only on a confirmed rollback. -/
theorem exit_nonzero_without_rollback_counterexample :
    runExitCode (runSupervisor (some "gateway") none (mkRat 5 100) 300 30
        (fun _ => QueryOutcome.failure "down") true) = 1
    ∧ dispatchCount (runSupervisor (some "gateway") none (mkRat 5 100) 300 30
        (fun _ => QueryOutcome.failure "down") true) = 0
    ∧ runSupervisor (some "gateway") none (mkRat 5 100) 300 30
        (fun _ => QueryOutcome.failure "down") true = RunResult.configError := by
  decide

/-- Claim C3, amended: the supervisor process exits non-zero exactly when a
confirmed rollback has been triggered or a required identity field is missing
(the fatal configuration error); it exits zero on a pass and on any internal
or monitoring failure (a thrown main is caught fail-open and exits zero). -/
theorem exit_code_characterization (scriptName serviceName : Option String)
    (thr : ℚ) (dur intv : Nat) (env : Nat → QueryOutcome) (dOk : Bool) (msg : String) :
    (monitorExitCode (MonitorBehavior.completes
        (runSupervisor scriptName serviceName thr dur intv env dOk)) ≠ 0
      ↔ ((∃ cs idx d, runSupervisor scriptName serviceName thr dur intv env dOk
            = RunResult.rolledBack cs idx d)
        ∨ runSupervisor scriptName serviceName thr dur intv env dOk
            = RunResult.configError))
    ∧ monitorExitCode (MonitorBehavior.throws msg) = 0
    ∧ (∀ cs, runSupervisor scriptName serviceName thr dur intv env dOk
          = RunResult.passed cs →
        monitorExitCode (MonitorBehavior.completes
          (runSupervisor scriptName serviceName thr dur intv env dOk)) = 0) := by
  refine ⟨?_, rfl, ?_⟩
  · cases hr : runSupervisor scriptName serviceName thr dur intv env dOk <;>
      simp [monitorExitCode, runExitCode]
  · intro cs h
    rw [h]
    rfl

theorem exit_code_characterization_witness :
    (monitorExitCode (MonitorBehavior.completes
        (runSupervisor (some "w") (some "svc") (mkRat 5 100) 300 30
          (fun _ => QueryOutcome.failure "down") true)) ≠ 0
      ↔ ((∃ cs idx d, runSupervisor (some "w") (some "svc") (mkRat 5 100) 300 30
            (fun _ => QueryOutcome.failure "down") true = RunResult.rolledBack cs idx d)
        ∨ runSupervisor (some "w") (some "svc") (mkRat 5 100) 300 30
            (fun _ => QueryOutcome.failure "down") true = RunResult.configError))
    ∧ monitorExitCode (MonitorBehavior.throws "boom") = 0
    ∧ (∀ cs, runSupervisor (some "w") (some "svc") (mkRat 5 100) 300 30
          (fun _ => QueryOutcome.failure "down") true = RunResult.passed cs →
        monitorExitCode (MonitorBehavior.completes
          (runSupervisor (some "w") (some "svc") (mkRat 5 100) 300 30
            (fun _ => QueryOutcome.failure "down") true)) = 0) :=
  exit_code_characterization (some "w") (some "svc") (mkRat 5 100) 300 30
    (fun _ => QueryOutcome.failure "down") true "boom"

/-- Claim C7: if the metrics source fails on every poll, the run never
triggers rollback, terminates Passed, every accumulated poll record is a
QueryFailed record, and with the default configuration (300s duration, 30s
interval) the run polls for the full duration: ten records, one per poll. -/
theorem all_queries_fail_passes (scriptName serviceName : String) (thr : ℚ)
    (dur intv : Nat) (env : Nat → QueryOutcome) (dOk : Bool)
    (hfail : ∀ j, ∃ m, env j = QueryOutcome.failure m) :
    (∃ cs, runSupervisor (some scriptName) (some serviceName) thr dur intv env dOk
        = RunResult.passed cs
      ∧ ∀ c ∈ cs, c.failedRecord = true)
    ∧ dispatchCount (runSupervisor (some scriptName) (some serviceName) thr dur intv env dOk) = 0
    ∧ runSupervisor (some "w") (some "svc") (mkRat 5 100) 300 30
        (fun _ => QueryOutcome.failure "timeout") true
      = RunResult.passed ((List.range 10).map
          (fun k => ⟨k + 1, PollOutcome.queryFailed "timeout"⟩)) := by
  obtain ⟨cs, hcs, hall⟩ :=
    pollLoop_allFail env thr intv dur dOk hfail (dur + 1) 0 0 [] (by simp)
  refine ⟨⟨cs, ?_, hall⟩, ?_, by decide⟩
  · rw [runSupervisor]
    exact hcs
  · rw [runSupervisor, hcs]
    rfl

theorem all_queries_fail_passes_witness :
    (∃ cs, runSupervisor (some "w") (some "svc") (mkRat 5 100) 300 30
        (fun _ => QueryOutcome.failure "timeout") true = RunResult.passed cs
      ∧ ∀ c ∈ cs, c.failedRecord = true)
    ∧ dispatchCount (runSupervisor (some "w") (some "svc") (mkRat 5 100) 300 30
        (fun _ => QueryOutcome.failure "timeout") true) = 0
    ∧ runSupervisor (some "w") (some "svc") (mkRat 5 100) 300 30
        (fun _ => QueryOutcome.failure "timeout") true
      = RunResult.passed ((List.range 10).map
          (fun k => ⟨k + 1, PollOutcome.queryFailed "timeout"⟩)) :=
  all_queries_fail_passes "w" "svc" (mkRat 5 100) 300 30
    (fun _ => QueryOutcome.failure "timeout") true (fun _ => ⟨"timeout", rfl⟩)

theorem if_bool_string_eq_true (b : Bool) :
    ((if b = true then "true" else "false") = "true") ↔ b = true := by
  cases b <;> simp

/-- Claim C4: for every successfully queried sample the canary gate passes
iff the sample's requestCount is 0 or its errorRate is at most the threshold;
with requestCount 0 it passes for every threshold; at threshold 0.05 the
sample (100, 6) fails and (100, 5) passes, so the boundary is inclusive. -/
theorem canary_pass_iff (name : String) (win : Nat) (thr : ℚ) (req err : Nat) :
    ((canaryMain (some name) win thr (QueryOutcome.success req err)).outputs
        = [("canary-passed", "true")]
      ↔ (req = 0 ∨ errorRateOf req err ≤ thr))
    ∧ (canaryMain (some name) win thr (QueryOutcome.success 0 err)).outputs
        = [("canary-passed", "true")]
    ∧ (mkRat 5 100 : ℚ) = 5 / 100
    ∧ (canaryMain (some "w") 60 (mkRat 5 100) (QueryOutcome.success 100 6)).outputs
        = [("canary-passed", "false")]
    ∧ (canaryMain (some "w") 60 (mkRat 5 100) (QueryOutcome.success 100 5)).outputs
        = [("canary-passed", "true")] := by
  refine ⟨?_, ?_, ?_, by decide, by decide⟩
  · simp only [canaryMain, runQuery, List.cons.injEq, Prod.mk.injEq, true_and, and_true]
    rw [if_bool_string_eq_true]
    simp
  · simp [canaryMain, runQuery]
  · rw [Rat.mkRat_eq_div]
    norm_num

/-- Claim C5: when the metrics query itself fails (network or API error or a
response that raises), the canary gate reports canary-passed=true with the
failure reason recorded in the summary, and the catch-all script-error path
does the same: monitoring-infrastructure failure never produces a failing
gate verdict. -/
theorem canary_query_failure_fail_open (name : String) (win : Nat) (thr : ℚ)
    (reason msg : String) :
    ((canaryMain (some name) win thr (QueryOutcome.failure reason)).outputs
        = [("canary-passed", "true")]
      ∧ ("> **PASS** (fail-open) — analytics query failed: " ++ reason)
          ∈ (canaryMain (some name) win thr (QueryOutcome.failure reason)).summary)
    ∧ ((canaryCatchReport msg).outputs = [("canary-passed", "true")]
      ∧ ("> **PASS** (fail-open) — script error: " ++ msg)
          ∈ (canaryCatchReport msg).summary) := by
  refine ⟨⟨rfl, ?_⟩, rfl, ?_⟩ <;> simp [canaryMain, runQuery, canaryCatchReport]

/-- Claim C6: for every input — any repo/SHA presence, deploy-flag mapping,
diff-stats result and deployment-history result, including the degraded and
failure paths and the catch-all handler — the reported score lies in the
closed interval [0, 100]. -/
theorem score_always_in_range (repo sha : Option String)
    (flags : List (String × Bool)) (diff : Except String DiffStats)
    (daysRes : Except String JsDays) (msg : String) :
    (0 ≤ (scoreMain repo sha flags diff daysRes).score
      ∧ (scoreMain repo sha flags diff daysRes).score ≤ 100)
    ∧ (0 ≤ (scoreCatchReport msg).score ∧ (scoreCatchReport msg).score ≤ 100) := by
  refine ⟨?_, by norm_num [scoreCatchReport]⟩
  cases repo with
  | none => simp [scoreMain]
  | some r =>
    cases sha with
    | none => simp [scoreMain]
    | some s =>
      cases diff with
      | error e => simp [scoreMain]
      | ok stats =>
        simp only [scoreMain]
        exact ⟨le_max_left 0 _, max_le (by norm_num) (min_le_left 100 _)⟩

/-- Claim C8: a change of 600 diff lines, all changed files under src/, four
services marked true in the deploy flags, and a production deployment three
days ago scores 100 − 20 − 15 = 65, with the large-change −20 factor listed
before the services-affected −15 factor. -/
theorem score_large_change_four_services :
    scoreMain (some "smoltbot") (some "abc1234deadbeef")
      [("smoltbot", true), ("mnemom-api", true), ("mnemom-reputation", true),
       ("mnemom-risk", true)]
      (getDiffStats (Except.ok (some "parentsha"))
        (Except.ok [⟨"src/app.ts", 400, 150⟩, ⟨"src/lib.ts", 30, 20⟩]))
      (getDaysSinceLastProdDeploy (Except.ok [999740800000]) 1000000000000)
    = { score := 65,
        factors := [⟨"Large change (>500 lines)", "-20"⟩,
                    ⟨"4 services affected (>3)", "-15"⟩],
        summary := [scoreHeader, "", "**Score: 65** / 100", "",
          "> Source: `smoltbot` @ `abc1234`", "",
          "| Signal | Impact |", "|--------|--------|",
          "| Large change (>500 lines) | -20 |",
          "| 4 services affected (>3) | -15 |"] } := by
  decide

theorem string_data_append (s t : String) : (s ++ t).data = s.data ++ t.data := by
  cases s
  cases t
  rfl

theorem string_ne_of_head {s t : String} {c d : Char} (hs : s.data.head? = some c)
    (ht : t.data.head? = some d) (hcd : c ≠ d) : s ≠ t := by
  intro e
  rw [e, ht] at hs
  exact hcd (Option.some.inj hs).symm

theorem append_ne_of_head (p s t : String) (c d : Char)
    (hp : p.data.head? = some c) (ht : t.data.head? = some d) (hcd : c ≠ d) :
    p ++ s ≠ t := by
  refine string_ne_of_head ?_ ht hcd
  rw [string_data_append]
  cases hl : p.data with
  | nil => rw [hl] at hp; simp at hp
  | cons a l =>
    rw [hl, List.head?_cons] at hp
    simpa using hp

theorem count_header_rows (l : List RiskFactor) :
    List.count "## Deployment Confidence Score"
      (l.map (fun f => "| " ++ (f.signal ++ (" | " ++ (f.impact ++ " |"))))) = 0 := by
  rw [List.count_eq_zero]
  intro hmem
  obtain ⟨f, _, hf⟩ := List.mem_map.mp hmem
  exact append_ne_of_head "| " _ "## Deployment Confidence Score" '|' '#'
    (by decide) (by decide) (by decide) hf

/-- Claim C9: an absent commit reference or repository identity, and an
outright diff-stats failure, each yield the fixed neutral score 50 with no
factor breakdown, and the structured report is emitted exactly once on every
outcome path — each summary, including the one of the catch-all error
handler, contains the report header exactly once. -/
theorem score_neutral_and_single_report (repo sha : Option String)
    (flags : List (String × Bool)) (diff : Except String DiffStats)
    (daysRes : Except String JsDays) (msg : String) :
    ((repo = none ∨ sha = none ∨ ∃ e, diff = Except.error e) →
      (scoreMain repo sha flags diff daysRes).score = 50
      ∧ (scoreMain repo sha flags diff daysRes).factors = [])
    ∧ (scoreMain repo sha flags diff daysRes).summary.count scoreHeader = 1
    ∧ (scoreCatchReport msg).summary.count scoreHeader = 1 := by
  have hcatch : (scoreCatchReport msg).summary.count scoreHeader = 1 := by
    have hne := append_ne_of_head "_Error computing score: " (msg ++ "_")
      "## Deployment Confidence Score" '_' '#' (by decide) (by decide) (by decide)
    simp [scoreCatchReport, List.count_cons, beq_iff_eq, scoreHeader, hne]
  refine ⟨?_, ?_, hcatch⟩
  · intro hdeg
    cases repo with
    | none => exact ⟨rfl, rfl⟩
    | some r =>
      cases sha with
      | none => exact ⟨rfl, rfl⟩
      | some s =>
        rcases hdeg with h | h | ⟨e, he⟩
        · exact absurd h (by simp)
        · exact absurd h (by simp)
        · rw [he]
          exact ⟨rfl, rfl⟩
  · cases repo with
    | none => simp [scoreMain, List.count_cons, beq_iff_eq, scoreHeader]
    | some r =>
      cases sha with
      | none => simp [scoreMain, List.count_cons, beq_iff_eq, scoreHeader]
      | some s =>
        cases diff with
        | error e =>
          have hne := append_ne_of_head "_Analysis unavailable: " (e ++ "_")
            "## Deployment Confidence Score" '_' '#' (by decide) (by decide) (by decide)
          simp [scoreMain, List.count_cons, beq_iff_eq, scoreHeader, hne]
        | ok stats =>
          have hsc := append_ne_of_head "**Score: "
            (toString (max 0 (min 100 (computeScore flags stats daysRes).1)) ++ "** / 100")
            "## Deployment Confidence Score" '*' '#' (by decide) (by decide) (by decide)
          have hsrc := append_ne_of_head "> Source: `"
            (r ++ ("` @ `" ++ (s.take 7 ++ "`")))
            "## Deployment Confidence Score" '>' '#' (by decide) (by decide) (by decide)
          simp only [scoreMain]
          rw [List.count_append]
          by_cases hlen : (computeScore flags stats daysRes).2.length > 0
          · rw [if_pos hlen]
            rw [List.count_append]
            simp [List.count_cons, beq_iff_eq, scoreHeader, hsc, hsrc, count_header_rows]
          · rw [if_neg hlen]
            simp [List.count_cons, beq_iff_eq, scoreHeader, hsc, hsrc]

theorem score_neutral_and_single_report_witness :
    ((scoreMain none (some "abc1234") [] (Except.ok ⟨0, []⟩)
        (Except.ok (JsDays.finite 0))).score = 50
      ∧ (scoreMain none (some "abc1234") [] (Except.ok ⟨0, []⟩)
          (Except.ok (JsDays.finite 0))).factors = [])
    ∧ (scoreMain none (some "abc1234") [] (Except.ok ⟨0, []⟩)
        (Except.ok (JsDays.finite 0))).summary.count scoreHeader = 1
    ∧ (scoreCatchReport "boom").summary.count scoreHeader = 1 :=
  ⟨(score_neutral_and_single_report none (some "abc1234") [] (Except.ok ⟨0, []⟩)
      (Except.ok (JsDays.finite 0)) "boom").1 (Or.inl rfl),
   (score_neutral_and_single_report none (some "abc1234") [] (Except.ok ⟨0, []⟩)
      (Except.ok (JsDays.finite 0)) "boom").2.1,
   (score_neutral_and_single_report none (some "abc1234") [] (Except.ok ⟨0, []⟩)
      (Except.ok (JsDays.finite 0)) "boom").2.2⟩

theorem mem_append_singleton {α : Type} {x a : α} {l : List α} (h : x ∈ l ++ [a]) :
    x ∈ l ∨ x = a := by
  rcases List.mem_append.mp h with h | h
  · exact Or.inl h
  · exact Or.inr (List.mem_singleton.mp h)

theorem applyDiffSize_impact (stats : DiffStats) (acc : Int × List RiskFactor)
    (h : ∀ f ∈ acc.2, f.impact ≠ "n/a") :
    ∀ f ∈ (applyDiffSize stats acc).2, f.impact ≠ "n/a" := by
  intro f hf
  simp only [applyDiffSize] at hf
  split_ifs at hf <;>
    (try rcases mem_append_singleton hf with hf | rfl) <;>
    (try rcases mem_append_singleton hf with hf | rfl) <;>
    first
    | exact h f hf
    | simp

theorem applyConfigFiles_impact (stats : DiffStats) (acc : Int × List RiskFactor)
    (h : ∀ f ∈ acc.2, f.impact ≠ "n/a") :
    ∀ f ∈ (applyConfigFiles stats acc).2, f.impact ≠ "n/a" := by
  intro f hf
  simp only [applyConfigFiles] at hf
  split_ifs at hf <;>
    (try rcases mem_append_singleton hf with hf | rfl) <;>
    first
    | exact h f hf
    | simp

theorem applyDepFiles_impact (stats : DiffStats) (acc : Int × List RiskFactor)
    (h : ∀ f ∈ acc.2, f.impact ≠ "n/a") :
    ∀ f ∈ (applyDepFiles stats acc).2, f.impact ≠ "n/a" := by
  intro f hf
  simp only [applyDepFiles] at hf
  split_ifs at hf <;>
    (try rcases mem_append_singleton hf with hf | rfl) <;>
    first
    | exact h f hf
    | simp

theorem applyServices_impact (flags : List (String × Bool)) (acc : Int × List RiskFactor)
    (h : ∀ f ∈ acc.2, f.impact ≠ "n/a") :
    ∀ f ∈ (applyServices flags acc).2, f.impact ≠ "n/a" := by
  intro f hf
  simp only [applyServices] at hf
  split_ifs at hf <;>
    (try rcases mem_append_singleton hf with hf | rfl) <;>
    first
    | exact h f hf
    | simp

theorem pipeline_impacts (flags : List (String × Bool)) (stats : DiffStats) :
    ∀ f ∈ (applyServices flags (applyDepFiles stats (applyConfigFiles stats
        (applyDiffSize stats (100, ([] : List RiskFactor)))))).2,
      f.impact ≠ "n/a" :=
  applyServices_impact flags _ (applyDepFiles_impact stats _
    (applyConfigFiles_impact stats _ (applyDiffSize_impact stats _ (by simp))))

/-- Claim C10: with no recorded production deployment at all, the history
lookup returns Infinity instead of failing, so the >7-days −5 penalty is
applied, the factor label reports the non-finite day count Infinity, and the
neutral unavailable factor (the only factor whose impact is n/a) is not
recorded. -/
theorem no_deploy_history_infinite_days (flags : List (String × Bool))
    (stats : DiffStats) (now : Int) :
    getDaysSinceLastProdDeploy (Except.ok []) now = Except.ok JsDays.infinite
    ∧ JsDays.infinite.roundLabel = "Infinity"
    ∧ (computeScore flags stats (Except.ok JsDays.infinite)).2.getLast?
        = some ⟨">7 days since last prod deploy (Infinityd)", "-5"⟩
    ∧ (computeScore flags stats (Except.ok JsDays.infinite)).1
        = (computeScore flags stats (Except.ok (JsDays.finite 0))).1 - 5
    ∧ ∀ f ∈ (computeScore flags stats (Except.ok JsDays.infinite)).2,
        f.impact ≠ "n/a" := by
  have hInf : JsDays.gtSeven JsDays.infinite = true := rfl
  have h70 : JsDays.gtSeven (JsDays.finite 0) = false := by decide
  have hlab : ">7 days since last prod deploy (" ++ (JsDays.infinite.roundLabel ++ "d)")
      = ">7 days since last prod deploy (Infinityd)" := by decide
  refine ⟨rfl, rfl, ?_, ?_, ?_⟩
  · simp [computeScore, applyDays, hInf, hlab, List.getLast?_concat]
  · simp [computeScore, applyDays, hInf, h70]
  · intro f hf
    simp only [computeScore, applyDays, hInf, if_true] at hf
    rcases mem_append_singleton hf with h | rfl
    · exact pipeline_impacts flags stats f h
    · decide

theorem no_deploy_history_infinite_days_witness :
    (getDaysSinceLastProdDeploy (Except.ok []) 1000000000000 = Except.ok JsDays.infinite
    ∧ JsDays.infinite.roundLabel = "Infinity"
    ∧ (computeScore [] ⟨60, ["src/app.ts"]⟩ (Except.ok JsDays.infinite)).2.getLast?
        = some ⟨">7 days since last prod deploy (Infinityd)", "-5"⟩
    ∧ (computeScore [] ⟨60, ["src/app.ts"]⟩ (Except.ok JsDays.infinite)).1
        = (computeScore [] ⟨60, ["src/app.ts"]⟩ (Except.ok (JsDays.finite 0))).1 - 5
    ∧ ∀ f ∈ (computeScore [] ⟨60, ["src/app.ts"]⟩ (Except.ok JsDays.infinite)).2,
        f.impact ≠ "n/a") :=
  no_deploy_history_infinite_days [] ⟨60, ["src/app.ts"]⟩ 1000000000000

end Deploy
